import Mathlib

/-!
Shallow embedding of the ngobrol chat backend (Rust, actix-web + sqlx),
translated from src/backend/src: the error taxonomy (error.rs), the JWT and
password utilities (utils/jwt.rs, utils/password.rs), the user and room
repositories (repositories/), the auth and room services (services/), and the
authentication middleware (middleware/).  Uuids are modelled as natural
numbers, timestamps as integers, and the persistent store as explicit lists of
rows; each repository call is one atomic statement, and service methods pass
the store state explicitly so that every intermediate committed state is
visible.
-/

/-- Decidable equality for Except results, so that concrete runs of the
embedded operations can be checked by evaluation. -/
def exceptDecEq {ε α : Type} [DecidableEq ε] [DecidableEq α] :
    (a b : Except ε α) → Decidable (a = b)
  | .error e, .error f =>
      if h : e = f then .isTrue (congrArg Except.error h)
      else .isFalse (fun hh => h (Except.error.inj hh))
  | .ok x, .ok y =>
      if h : x = y then .isTrue (congrArg Except.ok h)
      else .isFalse (fun hh => h (Except.ok.inj hh))
  | .error _, .ok _ => .isFalse (fun hh => Except.noConfusion hh)
  | .ok _, .error _ => .isFalse (fun hh => Except.noConfusion hh)

instance {ε α : Type} [DecidableEq ε] [DecidableEq α] : DecidableEq (Except ε α) :=
  exceptDecEq

/-- Helper for substring search: true when the first character list is an
initial segment of the second. -/
def listStartsWith : List Char → List Char → Bool
  | [], _ => true
  | _ :: _, [] => false
  | a :: as, b :: bs => a == b && listStartsWith as bs

/-- Helper for substring search: true when the needle occurs contiguously in
the haystack. -/
def containsAux (needle : List Char) : List Char → Bool
  | [] => needle.isEmpty
  | c :: rest => listStartsWith needle (c :: rest) || containsAux needle rest

/-- Rust str::contains, as used on constraint names in error.rs: true when
needle occurs as a contiguous substring of hay. -/
def strContainsSub (hay needle : String) : Bool :=
  containsAux needle.data hay.data

/-- AppError, translated from the enum in src/backend/src/error.rs.  Two
extra constructors are appended: DuplicateEntry and Unauthorized.  They do NOT
appear in the error.rs enum, but are constructed by services/auth_service.rs
(register) and middleware/extractor.rs (AuthUser) respectively; the embedding
keeps them so those functions can be translated literally.  ValidationError
carries its payload as a plain string here (error.rs declares a field-message
map, while auth_service.rs passes a rendered string to the constructor). -/
inductive AppError where
  | MissingToken
  | InvalidToken
  | InvalidCredentials
  | TokenExpired
  | AccountLocked
  | InsufficientPermissions
  | UserNotFound
  | EmailExists
  | UsernameExists
  | InvalidEmail
  | WeakPassword
  | RoomNotFound
  | AlreadyJoined
  | NotMember
  | RoomFull
  | RoomNameExists
  | PrivateNoAccess
  | OwnerRequired
  | MessageNotFound
  | MessageEmpty
  | MessageTooLong
  | NotMessageOwner
  | MessageAlreadyDeleted
  | ValidationError (detail : String)
  | MissingField (field : String)
  | InvalidFormat (field : String)
  | InvalidUuid (field : String)
  | RateLimitExceeded
  | MessageSpam
  | LoginAttempts
  | DatabaseError (msg : String)
  | RedisError (msg : String)
  | InternalError (msg : String)
  | DuplicateEntry (msg : String)
  | Unauthorized (msg : String)
  deriving DecidableEq

/-- Shape of a sqlx error as consumed by the From impl in error.rs: a
RowNotFound miss, a database error carrying an optional SQLSTATE code and an
optional violated-constraint name, or any other driver error. -/
inductive SqlxError where
  | RowNotFound
  | Database (code : Option String) (constraint : Option String)
  | Other
  deriving DecidableEq

/-- From sqlx::Error for AppError (error.rs lines 304 to 332): RowNotFound
maps to UserNotFound; a database error with SQLSTATE 23505 (unique violation)
is translated by the violated constraint name: a name containing "email"
gives EmailExists, else one containing "username" gives UsernameExists, and
any other constraint defaults to EmailExists.  Everything else becomes a
generic DatabaseError. -/
def sqlxErrorToAppError : SqlxError → AppError
  | .RowNotFound => .UserNotFound
  | .Database code constraint =>
      if code == some "23505" then
        let c := constraint.getD ""
        if strContainsSub c "email" then .EmailExists
        else if strContainsSub c "username" then .UsernameExists
        else .EmailExists
      else .DatabaseError "Database operation failed"
  | .Other => .DatabaseError "Database operation failed"

/-- Claims carried by a session token, translated from utils/jwt.rs. -/
structure Claims where
  sub : String
  exp : Int
  iat : Int
  email : String
  username : String
  deriving DecidableEq

/-- Modelled from the spec: the external jsonwebtoken crate is not part of
this repository; section 4.2 specifies a self-contained signed token whose
verification fails with Malformed, SignatureInvalid or Expired.  A token is
either a well-formed blob carrying its claims and the secret it was signed
with, or a malformed string. -/
inductive Token where
  | signed (claims : Claims) (secret : String)
  | malformed (raw : String)
  deriving DecidableEq

/-- Failure kinds of token verification in the external library, as consumed
by the From impl in error.rs. -/
inductive JwtErrorKind where
  | Malformed
  | SignatureInvalid
  | Expired
  deriving DecidableEq

/-- Modelled from the spec: decode with default validation in the external
jsonwebtoken crate, evaluated at current time now.  The signature is checked
before the expiry claim; a well-signed token whose exp lies in the past fails
with kind Expired. -/
def jwtDecode (token : Token) (secret : String) (now : Int) : Except JwtErrorKind Claims :=
  match token with
  | .malformed _ => .error .Malformed
  | .signed claims s =>
      if s ≠ secret then .error .SignatureInvalid
      else if claims.exp < now then .error .Expired
      else .ok claims

/-- From jsonwebtoken errors for AppError (error.rs lines 341 to 348):
ExpiredSignature maps to TokenExpired, every other kind to InvalidToken. -/
def jwtErrorToAppError : JwtErrorKind → AppError
  | .Expired => .TokenExpired
  | _ => .InvalidToken

/-- Uuids are modelled as natural numbers; Uuid::to_string is toString. -/
def uuidToString (id : Nat) : String := toString id

/-- Helper for uuid parsing: reads a decimal digit string. -/
def digitsToNatAux (acc : Nat) : List Char → Option Nat
  | [] => some acc
  | c :: rest =>
      if c.isDigit then digitsToNatAux (acc * 10 + (c.toNat - 48)) rest else none

/-- Uuid::parse_str: recovers exactly the ids produced by uuidToString and
fails on any string that is not a rendered id. -/
def uuidParseStr (s : String) : Option Nat :=
  match s.data with
  | [] => none
  | cs => digitsToNatAux 0 cs

/-- generate_token from utils/jwt.rs: builds claims with exp equal to now
plus the configured TTL in seconds and signs them with the secret (the
external encode call is modelled as constructing a signed token). -/
def jwt.generate_token (user_id : Nat) (email username secret : String)
    (expires_in_seconds : Int) (now : Int) : Token :=
  .signed { sub := uuidToString user_id, exp := now + expires_in_seconds,
            iat := now, email := email, username := username } secret

/-- verify_token from utils/jwt.rs: decodes with the secret and maps library
errors through the From impl in error.rs. -/
def jwt.verify_token (token : Token) (secret : String) (now : Int) : Except AppError Claims :=
  match jwtDecode token secret now with
  | .error e => .error (jwtErrorToAppError e)
  | .ok c => .ok c

/-- Fuel-bounded repetition of the Bearer strip, modelling the Rust
trim_start_matches call, which removes every leading occurrence. -/
def trimBearerAux : Nat → String → String
  | 0, s => s
  | n + 1, s => if s.startsWith "Bearer " then trimBearerAux n (s.drop 7) else s

/-- extract_token_from_header from utils/jwt.rs: requires the Bearer marker,
strips every leading occurrence of it, trims whitespace, and rejects an empty
remainder. -/
def jwt.extract_token_from_header (auth_header : String) : Except AppError String :=
  if !(auth_header.startsWith "Bearer ") then .error .InvalidToken
  else
    let token := (trimBearerAux auth_header.length auth_header).trim
    if token.isEmpty then .error .InvalidToken
    else .ok token

/-- Modelled from the spec: the external argon2 crate is not part of this
repository; section 4.1 specifies a memory-hard, randomly salted hash.  A
stored hash string is either a well-formed PHC string, determined injectively
by the salt and the password it digests, or a structurally invalid string. -/
inductive StoredHash where
  | phc (salt : Nat) (digest : String)
  | invalid (raw : String)
  deriving DecidableEq

/-- hash_password from utils/password.rs: draws a fresh random salt from
OsRng (made explicit as the salt argument) and hashes the password with
default Argon2 parameters. -/
def password.hash_password (pw : String) (salt : Nat) : StoredHash :=
  .phc salt pw

/-- verify_password from utils/password.rs: parsing a structurally invalid
hash fails with InternalError; otherwise the Argon2 check returns Ok true on
match and Ok false on mismatch, never an error. -/
def password.verify_password (pw : String) (hash : StoredHash) : Except AppError Bool :=
  match hash with
  | .invalid raw => .error (.InternalError ("Invalid password hash: " ++ raw))
  | .phc _ digest => .ok (pw == digest)

/-- User row, translated from models/user.rs; password_hash holds a PHC
string, modelled by StoredHash. -/
structure User where
  id : Nat
  username : String
  email : String
  password_hash : StoredHash
  display_name : Option String
  avatar_url : Option String
  status : String
  is_active : Bool
  created_at : Int
  updated_at : Int
  deriving DecidableEq

/-- Room row, translated from models/room.rs; room_type is the string public
or private. -/
structure Room where
  id : Nat
  name : String
  description : Option String
  room_type : String
  owner_id : Nat
  max_members : Option Int
  created_at : Int
  updated_at : Int
  deriving DecidableEq

/-- Room membership row, translated from models/room.rs. -/
structure RoomMember where
  id : Nat
  room_id : Nat
  user_id : Nat
  role : String
  joined_at : Int
  deriving DecidableEq

/-- The persistent store: the users, rooms and room_members tables, plus a
fresh-id counter standing for id generation in INSERT statements.  Each
repository statement is atomic (spec section 5); service methods compose
several statements, and every intermediate state is a committed state. -/
structure DB where
  users : List User
  rooms : List Room
  room_members : List RoomMember
  next_id : Nat
  deriving DecidableEq

/-- Registration input, translated from models/user.rs. -/
structure CreateUserDto where
  username : String
  email : String
  password : String
  display_name : Option String
  deriving DecidableEq

/-- Login input, translated from models/user.rs. -/
structure LoginDto where
  email : String
  password : String
  deriving DecidableEq

/-- Room creation input, translated from models/room.rs. -/
structure CreateRoomDto where
  name : String
  description : Option String
  room_type : String
  max_members : Option Int
  deriving DecidableEq

/-- Room update input, translated from models/room.rs. -/
structure UpdateRoomDto where
  name : Option String
  description : Option String
  room_type : Option String
  max_members : Option Int
  deriving DecidableEq

/-- Helper for the email format check: scans for one at-sign with a nonempty
part on each side and no further at-sign after it. -/
def emailAux (seen : List Char) : List Char → Bool
  | [] => false
  | c :: rest =>
      if c == '@' then !seen.isEmpty && !rest.isEmpty && !(rest.contains '@')
      else emailAux (c :: seen) rest

/-- Modelled from the spec: the email format rule of the external validator
crate (the validate derive on email fields), abstracted to a single at-sign
separating a nonempty local part from a nonempty domain. -/
def isEmailFormat (s : String) : Bool := emailAux [] s.data

/-- Validate derive on CreateUserDto (models/user.rs): username length 3 to
50, email format, password length at least 8, display_name at most 100. -/
def CreateUserDto.validate (dto : CreateUserDto) : Bool :=
  decide (3 ≤ dto.username.length) && decide (dto.username.length ≤ 50)
    && isEmailFormat dto.email
    && decide (8 ≤ dto.password.length)
    && (match dto.display_name with
        | some d => decide (d.length ≤ 100)
        | none => true)

/-- Validate derive on LoginDto (models/user.rs): email format and a nonempty
password. -/
def LoginDto.validate (dto : LoginDto) : Bool :=
  isEmailFormat dto.email && decide (1 ≤ dto.password.length)

/-- Validate derive on CreateRoomDto (models/room.rs): name length 3 to 100,
description at most 500, max_members in 2 to 1000 when present. -/
def CreateRoomDto.validate (dto : CreateRoomDto) : Bool :=
  decide (3 ≤ dto.name.length) && decide (dto.name.length ≤ 100)
    && (match dto.description with
        | some d => decide (d.length ≤ 500)
        | none => true)
    && (match dto.max_members with
        | some m => decide (2 ≤ m) && decide (m ≤ 1000)
        | none => true)

/-- Validate derive on UpdateRoomDto (models/room.rs): the same bounds as on
creation, applied to the fields that are present. -/
def UpdateRoomDto.validate (dto : UpdateRoomDto) : Bool :=
  (match dto.name with
   | some n => decide (3 ≤ n.length) && decide (n.length ≤ 100)
   | none => true)
    && (match dto.description with
        | some d => decide (d.length ≤ 500)
        | none => true)
    && (match dto.max_members with
        | some m => decide (2 ≤ m) && decide (m ≤ 1000)
        | none => true)

/-- UserRepository::create (user_repo.rs): INSERT with status offline, the
is_active flag defaulting to true, id and timestamps from the store. -/
def UserRepository.create (db : DB) (dto : CreateUserDto) (password_hash : StoredHash)
    (now : Int) : User × DB :=
  let user : User :=
    { id := db.next_id, username := dto.username, email := dto.email,
      password_hash := password_hash, display_name := dto.display_name,
      avatar_url := none, status := "offline", is_active := true,
      created_at := now, updated_at := now }
  (user, { db with users := db.users ++ [user], next_id := db.next_id + 1 })

/-- UserRepository::find_by_email (user_repo.rs): SELECT restricted to
is_active = true; a miss is sqlx RowNotFound, which the From impl in error.rs
turns into UserNotFound. -/
def UserRepository.find_by_email (db : DB) (email : String) : Except AppError User :=
  match db.users.find? (fun u => u.email == email && u.is_active) with
  | some u => .ok u
  | none => .error (sqlxErrorToAppError .RowNotFound)

/-- UserRepository::find_by_id (user_repo.rs): SELECT restricted to
is_active = true; a miss is sqlx RowNotFound, hence UserNotFound. -/
def UserRepository.find_by_id (db : DB) (user_id : Nat) : Except AppError User :=
  match db.users.find? (fun u => u.id == user_id && u.is_active) with
  | some u => .ok u
  | none => .error (sqlxErrorToAppError .RowNotFound)

/-- UserRepository::update_status (user_repo.rs): UPDATE of status and
updated_at for an active user; affects zero rows silently when the user is
missing or inactive. -/
def UserRepository.update_status (db : DB) (user_id : Nat) (status : String) (now : Int) : DB :=
  { db with users := db.users.map (fun u =>
      if u.id == user_id && u.is_active then
        { u with status := status, updated_at := now }
      else u) }

/-- UserRepository::email_exists (user_repo.rs): EXISTS over all rows, with
no is_active filter. -/
def UserRepository.email_exists (db : DB) (email : String) : Bool :=
  db.users.any (fun u => u.email == email)

/-- UserRepository::username_exists (user_repo.rs): EXISTS over all rows,
with no is_active filter. -/
def UserRepository.username_exists (db : DB) (username : String) : Bool :=
  db.users.any (fun u => u.username == username)

/-- Room member response row, translated from models/room.rs: a membership
joined with user columns.  The Rust struct declares display_name as String
while the users column is nullable; the embedding keeps the column value as
an Option. -/
structure RoomMemberResponse where
  id : Nat
  room_id : Nat
  user_id : Nat
  username : String
  display_name : Option String
  avatar_url : Option String
  role : String
  status : String
  joined_at : Int
  deriving DecidableEq

/-- Room response, translated from models/room.rs. -/
structure RoomResponse where
  id : Nat
  name : String
  description : Option String
  room_type : String
  owner_id : Nat
  max_members : Option Int
  member_count : Nat
  created_at : Int
  updated_at : Int
  deriving DecidableEq

/-- From Room for RoomResponse (models/room.rs): member_count starts at zero
and is populated separately. -/
def Room.toResponse (room : Room) : RoomResponse :=
  { id := room.id, name := room.name, description := room.description,
    room_type := room.room_type, owner_id := room.owner_id,
    max_members := room.max_members, member_count := 0,
    created_at := room.created_at, updated_at := room.updated_at }

/-- User response, translated from models/user.rs: the public projection of
a user, excluding the password hash. -/
structure UserResponse where
  id : Nat
  username : String
  email : String
  display_name : Option String
  avatar_url : Option String
  status : String
  is_active : Bool
  created_at : Int
  updated_at : Int
  deriving DecidableEq

/-- From User for UserResponse (models/user.rs). -/
def User.toResponse (u : User) : UserResponse :=
  { id := u.id, username := u.username, email := u.email,
    display_name := u.display_name, avatar_url := u.avatar_url,
    status := u.status, is_active := u.is_active,
    created_at := u.created_at, updated_at := u.updated_at }

/-- Auth response, translated from models/user.rs. -/
structure AuthResponse where
  user : UserResponse
  token : Token
  deriving DecidableEq

/-- Runtime configuration fields used by the auth subsystem (config.rs). -/
structure Config where
  jwt_secret : String
  jwt_expires_in : Int
  deriving DecidableEq

/-- RoomRepository::create (room_repo.rs): INSERT RETURNING the new row. -/
def RoomRepository.create (db : DB) (dto : CreateRoomDto) (owner_id : Nat) (now : Int) :
    Room × DB :=
  let room : Room :=
    { id := db.next_id, name := dto.name, description := dto.description,
      room_type := dto.room_type, owner_id := owner_id,
      max_members := dto.max_members, created_at := now, updated_at := now }
  (room, { db with rooms := db.rooms ++ [room], next_id := db.next_id + 1 })

/-- RoomRepository::find_by_id (room_repo.rs): any fetch error is mapped to
RoomNotFound by the map_err in the source. -/
def RoomRepository.find_by_id (db : DB) (room_id : Nat) : Except AppError Room :=
  match db.rooms.find? (fun r => r.id == room_id) with
  | some r => .ok r
  | none => .error .RoomNotFound

/-- RoomRepository::count_members (room_repo.rs): COUNT over the memberships
of the room. -/
def RoomRepository.count_members (db : DB) (room_id : Nat) : Nat :=
  (db.room_members.filter (fun m => m.room_id == room_id)).length

/-- RoomRepository::is_member (room_repo.rs): EXISTS of a membership row for
the pair. -/
def RoomRepository.is_member (db : DB) (room_id user_id : Nat) : Bool :=
  db.room_members.any (fun m => m.room_id == room_id && m.user_id == user_id)

/-- RoomRepository::get_user_role (room_repo.rs): the role column of the
membership row of the pair, when one exists. -/
def RoomRepository.get_user_role (db : DB) (room_id user_id : Nat) : Option String :=
  (db.room_members.find? (fun m => m.room_id == room_id && m.user_id == user_id)).map
    (fun m => m.role)

/-- SQL LOWER, modelled character by character. -/
def lowerStr (s : String) : String := String.mk (s.data.map Char.toLower)

/-- RoomRepository::name_exists (room_repo.rs): EXISTS with case-insensitive
name comparison. -/
def RoomRepository.name_exists (db : DB) (name : String) : Bool :=
  db.rooms.any (fun r => lowerStr r.name == lowerStr name)

/-- RoomRepository::add_member (room_repo.rs): INSERT into room_members
RETURNING the new row. -/
def RoomRepository.add_member (db : DB) (room_id user_id : Nat) (role : String) (now : Int) :
    RoomMember × DB :=
  let m : RoomMember :=
    { id := db.next_id, room_id := room_id, user_id := user_id,
      role := role, joined_at := now }
  (m, { db with room_members := db.room_members ++ [m], next_id := db.next_id + 1 })

/-- RoomRepository::remove_member (room_repo.rs): DELETE of the membership
rows of the pair; zero affected rows fails NotMember. -/
def RoomRepository.remove_member (db : DB) (room_id user_id : Nat) :
    Except AppError Unit × DB :=
  let remaining := db.room_members.filter
    (fun m => !(m.room_id == room_id && m.user_id == user_id))
  if remaining.length == db.room_members.length then (.error .NotMember, db)
  else (.ok (), { db with room_members := remaining })

/-- RoomRepository::delete (room_repo.rs): DELETE of the room; zero affected
rows fails RoomNotFound.  The schema cascades the membership rows of the room
(spec sections 3 and 4.5; the migration files are not under src). -/
def RoomRepository.delete (db : DB) (room_id : Nat) : Except AppError Unit × DB :=
  if db.rooms.any (fun r => r.id == room_id) then
    let rooms2 := db.rooms.filter (fun r => !(r.id == room_id))
    let members2 := db.room_members.filter (fun m => !(m.room_id == room_id))
    (.ok (), { db with rooms := rooms2, room_members := members2 })
  else (.error .RoomNotFound, db)

/-- RoomRepository::get_members (room_repo.rs): inner join of the membership
rows of the room with users, ordered by joined_at ascending, which is the
insertion order here since joined_at is monotone in insertion order. -/
def RoomRepository.get_members (db : DB) (room_id : Nat) : List RoomMemberResponse :=
  (db.room_members.filter (fun m => m.room_id == room_id)).filterMap (fun m =>
    (db.users.find? (fun u => u.id == m.user_id)).map (fun u =>
      { id := m.id, room_id := m.room_id, user_id := m.user_id,
        username := u.username, display_name := u.display_name,
        avatar_url := u.avatar_url, role := m.role, status := u.status,
        joined_at := m.joined_at }))

/-- Ordering relation used to model ORDER BY created_at DESC in list_rooms. -/
def roomCreatedDesc (a b : Room) : Prop := b.created_at ≤ a.created_at

instance : DecidableRel roomCreatedDesc := fun a b =>
  inferInstanceAs (Decidable (b.created_at ≤ a.created_at))

/-- RoomRepository::list_rooms (room_repo.rs lines 50 to 81): selects ALL
rooms, with no visibility filter, each with its member count from the LEFT
JOIN, ordered by created_at descending, then OFFSET and LIMIT. -/
def RoomRepository.list_rooms (db : DB) (offset limit : Nat) : List RoomResponse :=
  (((db.rooms.insertionSort roomCreatedDesc).drop offset).take limit).map (fun r =>
    { r.toResponse with member_count := RoomRepository.count_members db r.id })

/-- RoomRepository::count_rooms (room_repo.rs lines 83 to 97): COUNT DISTINCT
over the rooms that are public or have a membership row for the user (the
LEFT JOIN is restricted to rows of that user). -/
def RoomRepository.count_rooms (db : DB) (user_id : Nat) : Nat :=
  (db.rooms.filter (fun r => r.room_type == "public"
      || db.room_members.any (fun m => m.room_id == r.id && m.user_id == user_id))).length

/-- Field merge of the dynamic UPDATE in RoomRepository::update: only the
present fields are assigned. -/
def applyRoomUpdate (updates : UpdateRoomDto) (r : Room) : Room :=
  { r with
      name := updates.name.getD r.name,
      description := match updates.description with
        | some d => some d
        | none => r.description,
      room_type := updates.room_type.getD r.room_type,
      max_members := match updates.max_members with
        | some m => some m
        | none => r.max_members }

/-- RoomRepository::update (room_repo.rs): with no present field it falls
back to find_by_id; otherwise the dynamic UPDATE RETURNING runs, whose miss
is RowNotFound and therefore UserNotFound through the From impl (the update
statement does not touch updated_at). -/
def RoomRepository.update (db : DB) (room_id : Nat) (updates : UpdateRoomDto) :
    Except AppError Room × DB :=
  if updates.name.isNone && updates.description.isNone && updates.room_type.isNone
      && updates.max_members.isNone then
    (RoomRepository.find_by_id db room_id, db)
  else
    match db.rooms.find? (fun r => r.id == room_id) with
    | some r =>
        let r2 := applyRoomUpdate updates r
        (.ok r2, { db with rooms := db.rooms.map (fun q => if q.id == room_id then r2 else q) })
    | none => (.error (sqlxErrorToAppError .RowNotFound), db)

/-- AuthService::register (auth_service.rs lines 14 to 52), translated
literally.  Note that the two duplicate pre-check branches construct
AppError::DuplicateEntry, a variant that the AppError enum of error.rs does
not declare (that enum offers EmailExists and UsernameExists instead); the
embedding keeps the constructor the source names.  The OsRng salt draw and
the clock are explicit arguments. -/
def AuthService.register (db : DB) (config : Config) (dto : CreateUserDto)
    (salt : Nat) (now : Int) : Except AppError AuthResponse × DB :=
  if !dto.validate then (.error (.ValidationError "validation failed"), db)
  else if UserRepository.email_exists db dto.email then
    (.error (.DuplicateEntry "Email already registered"), db)
  else if UserRepository.username_exists db dto.username then
    (.error (.DuplicateEntry "Username already taken"), db)
  else
    let password_hash := password.hash_password dto.password salt
    let (user, db1) := UserRepository.create db dto password_hash now
    let token := jwt.generate_token user.id user.email user.username
        config.jwt_secret config.jwt_expires_in now
    (.ok { user := user.toResponse, token := token }, db1)

/-- AuthService::login (auth_service.rs lines 54 to 92): every find_by_email
error is collapsed to InvalidCredentials by the map_err in the source; a
password mismatch is also InvalidCredentials; on success the status is set
online and a token issued (the response carries the row as fetched, with its
status before the update). -/
def AuthService.login (db : DB) (config : Config) (dto : LoginDto) (now : Int) :
    Except AppError AuthResponse × DB :=
  if !dto.validate then (.error (.ValidationError "validation failed"), db)
  else
    match UserRepository.find_by_email db dto.email with
    | .error _ => (.error .InvalidCredentials, db)
    | .ok user =>
        match password.verify_password dto.password user.password_hash with
        | .error e => (.error e, db)
        | .ok false => (.error .InvalidCredentials, db)
        | .ok true =>
            let db1 := UserRepository.update_status db user.id "online" now
            let token := jwt.generate_token user.id user.email user.username
                config.jwt_secret config.jwt_expires_in now
            (.ok { user := user.toResponse, token := token }, db1)

/-- AuthService::verify_token (auth_service.rs lines 113 to 129): jwt
verification, uuid parse of the sub claim (whose failure is InvalidToken),
then identity re-resolution through UserRepository::find_by_id. -/
def AuthService.verify_token (db : DB) (config : Config) (token : Token) (now : Int) :
    Except AppError User :=
  match jwt.verify_token token config.jwt_secret now with
  | .error e => .error e
  | .ok claims =>
      match uuidParseStr claims.sub with
      | none => .error .InvalidToken
      | some user_id => UserRepository.find_by_id db user_id

/-- AuthMiddlewareService::call (middleware/auth.rs), from bearer extraction
onward: the argument bearer is the extracted token (none when the
Authorization header is absent; the string-level header parsing is
jwt.extract_token_from_header), and the downstream handler is a function of
the request extensions, which hold an optional authenticated user id.  The
resolved id is inserted into the extensions BEFORE the handler is invoked. -/
def AuthMiddlewareService.call {α : Type} (db : DB) (config : Config) (now : Int)
    (bearer : Option Token) (handler : Option Nat → α) : Except AppError α :=
  match bearer with
  | none => .error .MissingToken
  | some token =>
      match AuthService.verify_token db config token now with
      | .error e => .error e
      | .ok user => .ok (handler (some user.id))

/-- FromRequest for AuthUser (middleware/extractor.rs): reads the user id
entry from the request extensions; a missing entry fails closed with
AppError::Unauthorized, a constructor the error.rs enum does not declare; the
embedding keeps the name the source uses. -/
def AuthUser.from_request (extensions : Option Nat) : Except AppError Nat :=
  match extensions with
  | some user_id => .ok user_id
  | none => .error (.Unauthorized "User not authenticated")

/-- RoomService::create_room (room_service.rs lines 12 to 43): validation,
name uniqueness pre-check, the room INSERT, then a SECOND separate statement
adding the creator as owner, and a read-back of the member count.  There is
no enclosing transaction: the two INSERT statements commit independently. -/
def RoomService.create_room (db : DB) (dto : CreateRoomDto) (owner_id : Nat) (now : Int) :
    Except AppError RoomResponse × DB :=
  if !dto.validate then (.error (.ValidationError "input: Invalid room data"), db)
  else if RoomRepository.name_exists db dto.name then (.error .RoomNameExists, db)
  else
    let (room, db1) := RoomRepository.create db dto owner_id now
    let (_, db2) := RoomRepository.add_member db1 room.id owner_id "owner" now
    let member_count := RoomRepository.count_members db2 room.id
    (.ok { room.toResponse with member_count := member_count }, db2)

/-- Committed store states reachable during RoomService::create_room: the
initial state, then on the happy path the state after the room INSERT commits
(before the owner membership INSERT), and the final state.  Because the two
INSERTs are separate statements on the pool with no transaction, each commit
point is an observable store state. -/
def RoomService.create_room_states (db : DB) (dto : CreateRoomDto) (owner_id : Nat)
    (now : Int) : List DB :=
  if !dto.validate then [db]
  else if RoomRepository.name_exists db dto.name then [db]
  else
    let (room, db1) := RoomRepository.create db dto owner_id now
    let (_, db2) := RoomRepository.add_member db1 room.id owner_id "owner" now
    [db, db1, db2]

/-- Wrapping u32 arithmetic of the offset computation (page - 1) * per_page
in RoomService::get_rooms, with the release-profile semantics of Rust
subtraction and multiplication on u32. -/
def u32OffsetOf (page per_page : Nat) : Nat :=
  (((page + 4294967295) % 4294967296) * per_page) % 4294967296

/-- RoomService::get_rooms (room_service.rs lines 46 to 62): the page comes
from list_rooms, which applies no visibility filter, while the total is
count_rooms, the count of rooms accessible to the caller. -/
def RoomService.get_rooms (db : DB) (user_id : Nat) (page per_page : Nat) :
    List RoomResponse × Nat :=
  (RoomRepository.list_rooms db (u32OffsetOf page per_page) per_page,
   RoomRepository.count_rooms db user_id)

/-- RoomService::update_room (room_service.rs lines 101 to 136): validation,
existence check, then the role gate admitting owner and admin before the
UPDATE runs; every other role, including no membership, fails
InsufficientPermissions. -/
def RoomService.update_room (db : DB) (room_id : Nat) (dto : UpdateRoomDto)
    (user_id : Nat) : Except AppError RoomResponse × DB :=
  if !dto.validate then (.error (.ValidationError "input: Invalid room data"), db)
  else
    match RoomRepository.find_by_id db room_id with
    | .error e => (.error e, db)
    | .ok _ =>
        let role := RoomRepository.get_user_role db room_id user_id
        if role = some "owner" ∨ role = some "admin" then
          match RoomRepository.update db room_id dto with
          | (.error e, db1) => (.error e, db1)
          | (.ok updated, db1) =>
              let member_count := RoomRepository.count_members db1 room_id
              (.ok { updated.toResponse with member_count := member_count }, db1)
        else (.error .InsufficientPermissions, db)

/-- RoomService::delete_room (room_service.rs lines 139 to 158): existence
check, the owner-only gate, then the DELETE with cascade. -/
def RoomService.delete_room (db : DB) (room_id user_id : Nat) :
    Except AppError Unit × DB :=
  match RoomRepository.find_by_id db room_id with
  | .error e => (.error e, db)
  | .ok _ =>
      if RoomRepository.get_user_role db room_id user_id ≠ some "owner" then
        (.error .OwnerRequired, db)
      else RoomRepository.delete db room_id

/-- RoomService::join_room (room_service.rs lines 161 to 198): AlreadyJoined
on an existing membership, RoomFull when max_members is set and the count has
reached it, PrivateNoAccess for a private room, then the member INSERT and a
read-back of the created membership from the joined member list (whose
absence is an InternalError). -/
def RoomService.join_room (db : DB) (room_id user_id : Nat) (now : Int) :
    Except AppError RoomMemberResponse × DB :=
  match RoomRepository.find_by_id db room_id with
  | .error e => (.error e, db)
  | .ok room =>
      if RoomRepository.is_member db room_id user_id then (.error .AlreadyJoined, db)
      else
        let full := match room.max_members with
          | some mx => decide ((RoomRepository.count_members db room_id : Int) ≥ mx)
          | none => false
        if full then (.error .RoomFull, db)
        else if room.room_type == "private" then (.error .PrivateNoAccess, db)
        else
          let (_, db1) := RoomRepository.add_member db room_id user_id "member" now
          match (RoomRepository.get_members db1 room_id).find?
              (fun m => m.user_id == user_id) with
          | some member => (.ok member, db1)
          | none => (.error (.InternalError "Failed to retrieve member info"), db1)

/-- RoomService::leave_room (room_service.rs lines 200 to 219): existence
check, OwnerRequired when the caller role is owner, then the membership
DELETE, which fails NotMember when no row is affected. -/
def RoomService.leave_room (db : DB) (room_id user_id : Nat) :
    Except AppError Unit × DB :=
  match RoomRepository.find_by_id db room_id with
  | .error e => (.error e, db)
  | .ok _ =>
      if RoomRepository.get_user_role db room_id user_id = some "owner" then
        (.error .OwnerRequired, db)
      else RoomRepository.remove_member db room_id user_id

/-- Rooms accessible to a caller as the spec words it in section 6
(countAccessible): the public rooms plus the rooms in which the caller holds
a membership. -/
def accessibleRooms (db : DB) (user_id : Nat) : List Room :=
  db.rooms.filter (fun r => r.room_type == "public"
    || db.room_members.any (fun m => m.room_id == r.id && m.user_id == user_id))

/-- Sample active user row for concrete checks. -/
def sampleUser : User :=
  { id := 1, username := "alice", email := "alice@example.com",
    password_hash := .phc 7 "password123", display_name := none,
    avatar_url := none, status := "offline", is_active := true,
    created_at := 0, updated_at := 0 }

/-- Sample store holding one active user and no rooms. -/
def sampleDB : DB :=
  { users := [sampleUser], rooms := [], room_members := [], next_id := 10 }

/-- Sample configuration. -/
def sampleConfig : Config := { jwt_secret := "secret", jwt_expires_in := 3600 }

/-- Registration input reusing the email of the sample user. -/
def dtoSameEmail : CreateUserDto :=
  { username := "newuser", email := "alice@example.com",
    password := "password123", display_name := none }

/-- Registration input reusing the username of the sample user. -/
def dtoSameUsername : CreateUserDto :=
  { username := "alice", email := "bob@example.com",
    password := "password123", display_name := none }

/-- C1: the register pre-check on a store that already holds the email (or
the username) fails with AppError::DuplicateEntry, a constructor that the
AppError enum in error.rs does not declare, and not with EmailExists or
UsernameExists as the claim states; the persistence-level translation of a
uniqueness conflict by constraint name does behave exactly as claimed
(email constraint to EmailExists, username constraint to UsernameExists,
any other constraint defaulting to EmailExists). -/
theorem C1_register_duplicate_translation :
    (AuthService.register sampleDB sampleConfig dtoSameEmail 0 0).1
        = .error (.DuplicateEntry "Email already registered")
  ∧ (AuthService.register sampleDB sampleConfig dtoSameUsername 0 0).1
        = .error (.DuplicateEntry "Username already taken")
  ∧ AppError.DuplicateEntry "Email already registered" ≠ AppError.EmailExists
  ∧ AppError.DuplicateEntry "Username already taken" ≠ AppError.UsernameExists
  ∧ sqlxErrorToAppError (.Database (some "23505") (some "users_email_key"))
        = .EmailExists
  ∧ sqlxErrorToAppError (.Database (some "23505") (some "users_username_key"))
        = .UsernameExists
  ∧ sqlxErrorToAppError (.Database (some "23505") (some "users_pkey"))
        = .EmailExists := by
  decide

/-- C6: the typed identity accessor, applied to request extensions with no
identity entry, fails closed with the Unauthorized error instead of
producing an identity. -/
theorem C6_extractor_fails_closed :
    AuthUser.from_request none = .error (.Unauthorized "User not authenticated") := rfl

/-- C8: verifying a token issued for an identity, with the same secret and
before its expiry, succeeds and recovers the same subject id in the claims;
verifying it with a different secret fails with InvalidToken; and a
well-signed token whose expiry lies in the past fails with TokenExpired,
an error distinct from the InvalidToken result of other invalid tokens. -/
theorem C8_token_lifecycle (uid : Nat) (email username secret secret2 : String)
    (ttl now t : Int) (claims : Claims)
    (hfresh : t ≤ now + ttl) (hsecret : secret2 ≠ secret) (hexp : claims.exp < t) :
    jwt.verify_token (jwt.generate_token uid email username secret ttl now) secret t
      = .ok { sub := uuidToString uid, exp := now + ttl, iat := now,
              email := email, username := username }
  ∧ jwt.verify_token (jwt.generate_token uid email username secret ttl now) secret2 t
      = .error .InvalidToken
  ∧ jwt.verify_token (.signed claims secret) secret t = .error .TokenExpired
  ∧ AppError.TokenExpired ≠ AppError.InvalidToken := by
  refine ⟨?_, ?_, ?_, by decide⟩
  · simp [jwt.verify_token, jwt.generate_token, jwtDecode, not_lt.mpr hfresh]
  · simp [jwt.verify_token, jwt.generate_token, jwtDecode, Ne.symm hsecret,
      jwtErrorToAppError]
  · simp [jwt.verify_token, jwtDecode, hexp, jwtErrorToAppError]

/-- C8 witness: the lifecycle at a concrete identity, secret and clock. -/
theorem C8_token_lifecycle_witness :
    jwt.verify_token (jwt.generate_token 7 "alice@example.com" "alice" "secret" 3600 0)
        "secret" 10
      = .ok { sub := uuidToString 7, exp := 0 + 3600, iat := 0,
              email := "alice@example.com", username := "alice" } :=
  (C8_token_lifecycle 7 "alice@example.com" "alice" "secret" "other" 3600 0 10
    { sub := "7", exp := -5, iat := 0, email := "alice@example.com", username := "alice" }
    (by decide) (by decide) (by decide)).1

/-- C9: hashing one password under two distinct salt draws yields distinct
stored hashes; verifying the original password against either succeeds with
the value true; verifying a different password returns the value false
rather than an error; and verification fails, with an InternalError, exactly
on a structurally invalid stored hash. -/
theorem C9_password_contract (p w : String) (s1 s2 : Nat)
    (hs : s1 ≠ s2) (hw : w ≠ p) :
    password.hash_password p s1 ≠ password.hash_password p s2
  ∧ password.verify_password p (password.hash_password p s1) = .ok true
  ∧ password.verify_password p (password.hash_password p s2) = .ok true
  ∧ password.verify_password w (password.hash_password p s1) = .ok false
  ∧ (∀ raw, password.verify_password w (.invalid raw)
      = .error (.InternalError ("Invalid password hash: " ++ raw)))
  ∧ (∀ h : StoredHash,
      (password.verify_password w h).isOk = false ↔ ∃ raw, h = .invalid raw) := by
  refine ⟨?_, ?_, ?_, ?_, fun raw => rfl, ?_⟩
  · intro h
    exact hs (by simpa [password.hash_password, StoredHash.phc.injEq] using h)
  · simp [password.hash_password, password.verify_password]
  · simp [password.hash_password, password.verify_password]
  · simp [password.hash_password, password.verify_password, hw]
  · intro h
    cases h with
    | phc salt digest => simp [password.verify_password, Except.isOk, Except.toBool]
    | invalid raw => simp [password.verify_password, Except.isOk, Except.toBool]

/-- C9 witness: the contract at a concrete password, wrong guess and salts. -/
theorem C9_password_contract_witness :
    password.verify_password "wrong"
        (password.hash_password "password123" 0) = .ok false :=
  (C9_password_contract "password123" "wrong" 0 1 (by decide) (by decide)).2.2.2.1

/-- C7: with a well-formed login input, the case where no active identity
holds the email and the case where the identity exists but the password does
not verify produce the same error, InvalidCredentials, so the two failure
causes are indistinguishable to the caller. -/
theorem C7_login_indistinguishable (db : DB) (config : Config) (dto : LoginDto)
    (now : Int) (hv : dto.validate = true) :
    (UserRepository.find_by_email db dto.email = .error .UserNotFound →
       (AuthService.login db config dto now).1 = .error .InvalidCredentials)
  ∧ (∀ u, UserRepository.find_by_email db dto.email = .ok u →
       password.verify_password dto.password u.password_hash = .ok false →
       (AuthService.login db config dto now).1 = .error .InvalidCredentials) := by
  constructor
  · intro hfind
    simp [AuthService.login, hv, hfind]
  · intro u hfind hverify
    simp [AuthService.login, hv, hfind, hverify]

/-- C7 witness: a store with one active user; a login with an unknown email
fails InvalidCredentials. -/
theorem C7_login_indistinguishable_witness :
    (AuthService.login sampleDB sampleConfig
        { email := "nobody@example.com", password := "password123" } 0).1
      = .error .InvalidCredentials :=
  (C7_login_indistinguishable sampleDB sampleConfig
      { email := "nobody@example.com", password := "password123" } 0 (by decide)).1
    (by decide)

/-- C5: when the bearer token passes signature and expiry verification and
its subject id parses, the gateway re-resolves the identity from the user
store: the call fails UserNotFound when no active user carries that id, and
otherwise invokes the downstream handler on request extensions holding
exactly the resolved identity id, so no handler runs on behalf of a deleted
or deactivated identity. -/
theorem C5_gateway_resolution {α : Type} (db : DB) (config : Config) (now : Int)
    (token : Token) (claims : Claims) (uid : Nat) (handler : Option Nat → α)
    (hdec : jwtDecode token config.jwt_secret now = .ok claims)
    (hsub : uuidParseStr claims.sub = some uid) :
    (db.users.find? (fun u => u.id == uid && u.is_active) = none →
      AuthMiddlewareService.call db config now (some token) handler
        = .error .UserNotFound)
  ∧ (∀ u, db.users.find? (fun u => u.id == uid && u.is_active) = some u →
      AuthMiddlewareService.call db config now (some token) handler
        = .ok (handler (some u.id))
      ∧ u.id = uid ∧ u.is_active = true) := by
  constructor
  · intro hfind
    simp [AuthMiddlewareService.call, AuthService.verify_token, jwt.verify_token,
      hdec, hsub, UserRepository.find_by_id, hfind, sqlxErrorToAppError]
  · intro u hfind
    refine ⟨?_, ?_, ?_⟩
    · simp [AuthMiddlewareService.call, AuthService.verify_token, jwt.verify_token,
        hdec, hsub, UserRepository.find_by_id, hfind]
    · have hp := List.find?_some hfind
      simp only [Bool.and_eq_true, beq_iff_eq] at hp
      exact hp.1
    · have hp := List.find?_some hfind
      simp only [Bool.and_eq_true, beq_iff_eq] at hp
      exact hp.2

/-- C5 witness: a valid token for the sample user is resolved and the
handler receives exactly that identity id. -/
theorem C5_gateway_resolution_witness :
    AuthMiddlewareService.call sampleDB sampleConfig 0
        (some (.signed { sub := "1", exp := 3600, iat := 0,
                         email := "alice@example.com", username := "alice" } "secret"))
        (fun ctx => ctx)
      = .ok (some sampleUser.id) :=
  ((C5_gateway_resolution sampleDB sampleConfig 0
      (.signed { sub := "1", exp := 3600, iat := 0,
                 email := "alice@example.com", username := "alice" } "secret")
      { sub := "1", exp := 3600, iat := 0,
        email := "alice@example.com", username := "alice" } 1
      (fun ctx => ctx) (by decide) (by decide)).2 sampleUser (by decide)).1

/-- Room creation input used by concrete checks. -/
def sampleRoomDto : CreateRoomDto :=
  { name := "general", description := none, room_type := "public",
    max_members := some 2 }

/-- Intermediate committed state of the sample create_room call: after the
room INSERT commits and before the owner membership INSERT runs. -/
def sampleMidState : DB := (RoomRepository.create sampleDB sampleRoomDto 1 5).2

/-- C2 counterexample: create_room issues the room INSERT and the owner
membership INSERT as two separate statements with no transaction, so among
its reachable committed states there is one, the second state of the trace,
in which the new room (id 10) exists while no membership for it exists at
all; the owner membership is therefore not established atomically with the
creation of the room. -/
theorem C2_create_room_not_atomic :
    (RoomService.create_room_states sampleDB sampleRoomDto 1 5).get? 1
      = some sampleMidState
  ∧ sampleMidState.rooms.any (fun r => r.id == 10) = true
  ∧ sampleMidState.room_members.any (fun m => m.room_id == 10) = false := by
  decide

/-- C2 amended: after a successful create_room whose room id is fresh, the
final state holds exactly one membership in the new room, held by the
creator with role owner; atomicity of its establishment is dropped (the two
INSERT statements commit separately, as the counterexample shows). -/
theorem C2_create_room_owner_membership (db : DB) (dto : CreateRoomDto)
    (owner_id : Nat) (now : Int) (resp : RoomResponse) (db2 : DB)
    (hfresh : ∀ m ∈ db.room_members, m.room_id ≠ db.next_id)
    (h : RoomService.create_room db dto owner_id now = (.ok resp, db2)) :
    db2.room_members.filter (fun m => m.room_id == resp.id)
      = [{ id := db.next_id + 1, room_id := resp.id, user_id := owner_id,
           role := "owner", joined_at := now }] := by
  rw [RoomService.create_room] at h
  by_cases hval : dto.validate
  · simp only [hval, Bool.not_true, Bool.false_eq_true, if_false] at h
    by_cases hname : RoomRepository.name_exists db dto.name
    · rw [if_pos hname] at h
      exact absurd (congrArg Prod.fst h) (by simp)
    · rw [if_neg hname] at h
      simp only [RoomRepository.create, RoomRepository.add_member,
        RoomRepository.count_members, Prod.mk.injEq] at h
      obtain ⟨hresp, hdb⟩ := h
      have hresp2 := Except.ok.inj hresp
      subst hdb
      subst hresp2
      simp only [List.filter_append]
      rw [List.filter_eq_nil_iff.mpr ?side]
      case side =>
        intro m hm
        simpa [Room.toResponse] using hfresh m hm
      simp [Room.toResponse]
  · rw [if_pos (by simp [hval])] at h
    exact absurd (congrArg Prod.fst h) (by simp)

/-- C2 witness: the amended statement evaluated on the sample store. -/
theorem C2_create_room_owner_membership_witness :
    ({ users := [sampleUser],
       rooms := [{ id := 10, name := "general", description := none,
                   room_type := "public", owner_id := 1, max_members := some 2,
                   created_at := 5, updated_at := 5 }],
       room_members := [{ id := 11, room_id := 10, user_id := 1,
                          role := "owner", joined_at := 5 }],
       next_id := 12 : DB }).room_members.filter (fun m => m.room_id == (10 : Nat))
      = [{ id := 11, room_id := 10, user_id := 1, role := "owner", joined_at := 5 }] :=
  C2_create_room_owner_membership sampleDB sampleRoomDto 1 5
    { id := 10, name := "general", description := none, room_type := "public",
      owner_id := 1, max_members := some 2, member_count := 1,
      created_at := 5, updated_at := 5 }
    { users := [sampleUser],
      rooms := [{ id := 10, name := "general", description := none,
                  room_type := "public", owner_id := 1, max_members := some 2,
                  created_at := 5, updated_at := 5 }],
      room_members := [{ id := 11, room_id := 10, user_id := 1,
                         role := "owner", joined_at := 5 }],
      next_id := 12 }
    (by decide) (by decide)

/-- Helper: when the pair has no membership row, the membership DELETE
affects zero rows, so remove_member fails NotMember with the store
unchanged. -/
theorem remove_member_no_row (db : DB) (room_id user_id : Nat)
    (h : RoomRepository.get_user_role db room_id user_id = none) :
    RoomRepository.remove_member db room_id user_id = (.error .NotMember, db) := by
  simp only [RoomRepository.get_user_role, Option.map_eq_none'] at h
  have hall := List.find?_eq_none.mp h
  have hself : db.room_members.filter
      (fun m => !(m.room_id == room_id && m.user_id == user_id)) = db.room_members := by
    apply List.filter_eq_self.mpr
    intro m hm
    cases hb : (m.room_id == room_id && m.user_id == user_id) with
    | false => simp [hb]
    | true => exact absurd hb (hall m hm)
  simp only [RoomRepository.remove_member]
  rw [hself, beq_self_eq_true]
  simp

/-- Helper: when the pair has a membership row, the DELETE affects it, so
remove_member succeeds and the resulting store holds no membership row for
the pair. -/
theorem remove_member_row (db : DB) (room_id user_id : Nat) (r : String)
    (h : RoomRepository.get_user_role db room_id user_id = some r) :
    (RoomRepository.remove_member db room_id user_id).1 = .ok ()
  ∧ (RoomRepository.remove_member db room_id user_id).2.room_members.any
      (fun m => m.room_id == room_id && m.user_id == user_id) = false := by
  simp only [RoomRepository.get_user_role, Option.map_eq_some'] at h
  obtain ⟨m0, hm0, -⟩ := h
  have hlt : (db.room_members.filter
      (fun m => !(m.room_id == room_id && m.user_id == user_id))).length
      < db.room_members.length := by
    rw [List.length_filter_lt_length_iff_exists]
    refine ⟨m0, List.mem_of_find?_eq_some hm0, ?_⟩
    have hp := List.find?_some hm0
    simp_all
  have hne : ((db.room_members.filter
      (fun m => !(m.room_id == room_id && m.user_id == user_id))).length
      == db.room_members.length) = false := by
    rw [beq_eq_false_iff_ne]
    exact Nat.ne_of_lt hlt
  constructor
  · simp only [RoomRepository.remove_member]
    rw [hne]
    simp
  · simp only [RoomRepository.remove_member]
    rw [hne]
    simp only [Bool.false_eq_true, if_false]
    rw [List.any_eq_false]
    intro x hx
    have hnp := (List.mem_filter.mp hx).2
    intro hpx
    rw [hpx] at hnp
    simp at hnp

/-- Store with one public room (id 10) owned by user 1, who is its only
member; user 2 is a second active user with no membership. -/
def roomDB : DB :=
  { users := [sampleUser,
      { id := 2, username := "bob", email := "bob@example.com",
        password_hash := .phc 8 "password123", display_name := none,
        avatar_url := none, status := "offline", is_active := true,
        created_at := 0, updated_at := 0 }],
    rooms := [{ id := 10, name := "general", description := none,
                room_type := "public", owner_id := 1, max_members := none,
                created_at := 5, updated_at := 5 }],
    room_members := [{ id := 11, room_id := 10, user_id := 1, role := "owner",
                       joined_at := 5 }],
    next_id := 20 }

/-- C4 counterexample: user 2 holds no membership in room 10, so the role of
the caller is not owner, yet leave_room does not remove a membership and
succeed: it fails NotMember. -/
theorem C4_leave_room_nonmember_fails :
    RoomRepository.get_user_role roomDB 10 2 ≠ some "owner"
  ∧ (RoomService.leave_room roomDB 10 2).1 = .error .NotMember
  ∧ (RoomService.leave_room roomDB 10 2).1 ≠ .ok () := by decide

/-- C4 amended: for an existing room and a well-formed update input,
update_room succeeds exactly for owner or admin callers and otherwise fails
InsufficientPermissions; delete_room succeeds for the owner and otherwise
fails OwnerRequired; leave_room fails OwnerRequired for the owner, fails
NotMember for a caller with no membership, and for any other member removes
the membership of the caller. -/
theorem C4_role_gates (db : DB) (room_id user_id : Nat) (dto : UpdateRoomDto)
    (room : Room)
    (hroom : RoomRepository.find_by_id db room_id = .ok room)
    (hdto : dto.validate = true) :
    ((RoomRepository.get_user_role db room_id user_id = some "owner"
        ∨ RoomRepository.get_user_role db room_id user_id = some "admin") →
      (RoomService.update_room db room_id dto user_id).1.isOk = true)
  ∧ (RoomRepository.get_user_role db room_id user_id ≠ some "owner" →
     RoomRepository.get_user_role db room_id user_id ≠ some "admin" →
      (RoomService.update_room db room_id dto user_id).1
        = .error .InsufficientPermissions)
  ∧ (RoomRepository.get_user_role db room_id user_id = some "owner" →
      (RoomService.delete_room db room_id user_id).1 = .ok ())
  ∧ (RoomRepository.get_user_role db room_id user_id ≠ some "owner" →
      (RoomService.delete_room db room_id user_id).1 = .error .OwnerRequired)
  ∧ (RoomRepository.get_user_role db room_id user_id = some "owner" →
      (RoomService.leave_room db room_id user_id).1 = .error .OwnerRequired)
  ∧ (RoomRepository.get_user_role db room_id user_id = none →
      (RoomService.leave_room db room_id user_id).1 = .error .NotMember)
  ∧ (∀ r, RoomRepository.get_user_role db room_id user_id = some r → r ≠ "owner" →
      (RoomService.leave_room db room_id user_id).1 = .ok ()
      ∧ (RoomService.leave_room db room_id user_id).2.room_members.any
          (fun m => m.room_id == room_id && m.user_id == user_id) = false) := by
  have hfind : db.rooms.find? (fun r => r.id == room_id) = some room := by
    rw [RoomRepository.find_by_id] at hroom
    cases hf : db.rooms.find? (fun r => r.id == room_id) with
    | none => rw [hf] at hroom; exact absurd hroom (by simp)
    | some r0 => rw [hf] at hroom; exact congrArg some (Except.ok.inj hroom)
  refine ⟨?_, ?_, ?_, ?_, ?_, ?_, ?_⟩
  · intro hrole
    simp only [RoomService.update_room, hdto, Bool.not_true, Bool.false_eq_true,
      if_false, hroom]
    rw [if_pos hrole]
    by_cases hupd : (dto.name.isNone && dto.description.isNone
        && dto.room_type.isNone && dto.max_members.isNone) = true
    · simp [RoomRepository.update, hupd, hroom, Except.isOk, Except.toBool]
    · simp [RoomRepository.update, hupd, hfind, Except.isOk, Except.toBool]
  · intro h1 h2
    simp only [RoomService.update_room, hdto, Bool.not_true, Bool.false_eq_true,
      if_false, hroom]
    rw [if_neg (by simp [h1, h2])]
  · intro hrole
    simp only [RoomService.delete_room, hroom]
    rw [if_neg (by simp [hrole])]
    have hmem := List.mem_of_find?_eq_some hfind
    have hp := List.find?_some hfind
    have hany : db.rooms.any (fun r => r.id == room_id) = true :=
      List.any_eq_true.mpr ⟨room, hmem, hp⟩
    simp [RoomRepository.delete, hany]
  · intro hne
    simp only [RoomService.delete_room, hroom]
    rw [if_pos hne]
  · intro hrole
    simp [RoomService.leave_room, hroom, hrole]
  · intro hrole
    simp only [RoomService.leave_room, hroom]
    rw [if_neg (by simp [hrole])]
    rw [remove_member_no_row db room_id user_id hrole]
  · intro r hrole hr
    simp only [RoomService.leave_room, hroom]
    rw [if_neg (by simp [hrole, hr])]
    exact remove_member_row db room_id user_id r hrole

/-- C4 witness: in the sample room store, a leave_room call by the owner
fails OwnerRequired. -/
theorem C4_role_gates_witness :
    (RoomService.leave_room roomDB 10 1).1 = .error .OwnerRequired :=
  (C4_role_gates roomDB 10 1
      { name := none, description := none, room_type := none, max_members := none }
      { id := 10, name := "general", description := none, room_type := "public",
        owner_id := 1, max_members := none, created_at := 5, updated_at := 5 }
      (by decide) (by decide)).2.2.2.2.1 (by decide)

/-- C3: join_room on an existing room fails AlreadyJoined when a membership
for the caller already exists; otherwise fails RoomFull when max_members is
set and the current member count has reached it; otherwise fails
PrivateNoAccess when the room visibility is private; and on success the
final state holds a membership with role member for the caller. -/
theorem C3_join_room_gates (db : DB) (room_id user_id : Nat) (now : Int)
    (room : Room)
    (hroom : RoomRepository.find_by_id db room_id = .ok room) :
    (RoomRepository.is_member db room_id user_id = true →
        (RoomService.join_room db room_id user_id now).1 = .error .AlreadyJoined)
  ∧ (∀ mx, RoomRepository.is_member db room_id user_id = false →
        room.max_members = some mx →
        ((RoomRepository.count_members db room_id : Int) ≥ mx) →
        (RoomService.join_room db room_id user_id now).1 = .error .RoomFull)
  ∧ (RoomRepository.is_member db room_id user_id = false →
        (∀ mx, room.max_members = some mx →
          ((RoomRepository.count_members db room_id : Int) < mx)) →
        room.room_type = "private" →
        (RoomService.join_room db room_id user_id now).1 = .error .PrivateNoAccess)
  ∧ (∀ resp db1, RoomService.join_room db room_id user_id now = (.ok resp, db1) →
        db1.room_members.any (fun m => m.room_id == room_id
          && m.user_id == user_id && m.role == "member") = true) := by
  refine ⟨?_, ?_, ?_, ?_⟩
  · intro hmem
    simp [RoomService.join_room, hroom, hmem]
  · intro mx hmem hmx hge
    simp [RoomService.join_room, hroom, hmem, hmx, decide_eq_true hge]
  · intro hmem hlt hpriv
    cases hmm : room.max_members with
    | none => simp [RoomService.join_room, hroom, hmem, hmm, hpriv]
    | some mx =>
        simp [RoomService.join_room, hroom, hmem, hmm, hpriv,
          decide_eq_false (not_le.mpr (hlt mx hmm))]
  · intro resp db1 h
    simp only [RoomService.join_room, hroom] at h
    by_cases hmem : RoomRepository.is_member db room_id user_id = true
    · rw [if_pos hmem] at h
      exact absurd (congrArg Prod.fst h) (by simp)
    · rw [if_neg hmem] at h
      split at h
      · exact absurd (congrArg Prod.fst h) (by simp)
      · split at h
        · exact absurd (congrArg Prod.fst h) (by simp)
        · simp only [RoomRepository.add_member] at h
          split at h
          · have hdb := congrArg Prod.snd h
            simp only at hdb
            rw [← hdb]
            simp [List.any_append]
          · exact absurd (congrArg Prod.fst h) (by simp)

/-- C3 witness: user 1 already belongs to room 10, so joining again fails
AlreadyJoined. -/
theorem C3_join_room_gates_witness :
    (RoomService.join_room roomDB 10 1 6).1 = .error .AlreadyJoined :=
  (C3_join_room_gates roomDB 10 1 6
      { id := 10, name := "general", description := none, room_type := "public",
        owner_id := 1, max_members := none, created_at := 5, updated_at := 5 }
      (by decide)).1 (by decide)

/-- C10: for a full first page, the paginated listing returns one response
per room of the store, with no visibility filter, while the accompanying
total counts only the rooms accessible to the caller (public rooms plus
rooms where the caller is a member); a private room without a caller
membership therefore appears in the page yet lies outside the set the total
is drawn from, so the page contents and the total come from different room
sets. -/
theorem C10_listing_sets_mismatch (db : DB) (user_id per_page : Nat) (r : Room)
    (hr : r ∈ db.rooms) (hpp : db.rooms.length ≤ per_page) :
    ((RoomService.get_rooms db user_id 1 per_page).1.length = db.rooms.length)
  ∧ (∀ q ∈ db.rooms, ∃ resp ∈ (RoomService.get_rooms db user_id 1 per_page).1,
        resp.id = q.id ∧ resp.room_type = q.room_type)
  ∧ ((RoomService.get_rooms db user_id 1 per_page).2
        = (accessibleRooms db user_id).length)
  ∧ (r.room_type = "private" →
      (∀ m ∈ db.room_members, ¬(m.room_id = r.id ∧ m.user_id = user_id)) →
      r ∉ accessibleRooms db user_id
      ∧ ∃ resp ∈ (RoomService.get_rooms db user_id 1 per_page).1,
          resp.id = r.id) := by
  have hoff : u32OffsetOf 1 per_page = 0 := by simp [u32OffsetOf]
  have hlen : (db.rooms.insertionSort roomCreatedDesc).length = db.rooms.length :=
    List.length_insertionSort roomCreatedDesc db.rooms
  have htake : ((db.rooms.insertionSort roomCreatedDesc).drop 0).take per_page
      = db.rooms.insertionSort roomCreatedDesc := by
    rw [List.drop_zero]
    exact List.take_of_length_le (hlen ▸ hpp)
  have hpage : ∀ q ∈ db.rooms,
      ∃ resp ∈ (RoomService.get_rooms db user_id 1 per_page).1,
        resp.id = q.id ∧ resp.room_type = q.room_type := by
    intro q hq
    have hq2 : q ∈ db.rooms.insertionSort roomCreatedDesc :=
      ((List.perm_insertionSort roomCreatedDesc db.rooms).mem_iff).mpr hq
    refine ⟨{ q.toResponse with
        member_count := RoomRepository.count_members db q.id }, ?_, ?_, ?_⟩
    · simp only [RoomService.get_rooms, RoomRepository.list_rooms, hoff, htake]
      exact List.mem_map_of_mem _ hq2
    · simp [Room.toResponse]
    · simp [Room.toResponse]
  refine ⟨?_, hpage, rfl, ?_⟩
  · simp [RoomService.get_rooms, RoomRepository.list_rooms, hoff, htake, hlen, hpp]
  · intro hpriv hnm
    constructor
    · intro hin
      have hp := (List.mem_filter.mp hin).2
      rw [Bool.or_eq_true] at hp
      cases hp with
      | inl h1 => rw [hpriv] at h1; exact absurd h1 (by decide)
      | inr h2 =>
          rw [List.any_eq_true] at h2
          obtain ⟨m, hm, hpm⟩ := h2
          simp only [Bool.and_eq_true, beq_iff_eq] at hpm
          exact hnm m hm ⟨hpm.1, hpm.2⟩
    · obtain ⟨resp, hrespmem, hid, -⟩ := hpage r hr
      exact ⟨resp, hrespmem, hid⟩

/-- Store with a public room (id 10) and a private room (id 20), both owned
by user 1, their only member; user 2 is active with no memberships. -/
def listDB : DB :=
  { users := [sampleUser],
    rooms := [{ id := 10, name := "general", description := none,
                room_type := "public", owner_id := 1, max_members := none,
                created_at := 5, updated_at := 5 },
              { id := 20, name := "hidden", description := none,
                room_type := "private", owner_id := 1, max_members := none,
                created_at := 6, updated_at := 6 }],
    room_members := [{ id := 11, room_id := 10, user_id := 1, role := "owner",
                       joined_at := 5 },
                     { id := 21, room_id := 20, user_id := 1, role := "owner",
                       joined_at := 6 }],
    next_id := 30 }

/-- C10 witness: for caller 2 the first page of size 20 carries both rooms
of the store, the private one included, even though only one room is
accessible to that caller. -/
theorem C10_listing_sets_mismatch_witness :
    (RoomService.get_rooms listDB 2 1 20).1.length = listDB.rooms.length :=
  (C10_listing_sets_mismatch listDB 2 20
      { id := 20, name := "hidden", description := none, room_type := "private",
        owner_id := 1, max_members := none, created_at := 6, updated_at := 6 }
      (by decide) (by decide)).1
